import Mathlib

/-!
Verification of the OTT-Analysis recommendation scorer
(`src/pages/5_🎯_Movie_Recommendations.py`) against its specification.

The graph database contents are embedded shallowly: catalog entries
(`:Movie` / `:TVShow` nodes created by `import_data.create_movie_or_show`)
are `Item`s carrying a node identity `nid`, and the typed associations
(`BELONGS_TO_GENRE`, `ACTED_IN`, `DIRECTED`, `RELEASED_IN`) are edge lists
keyed by node identity and by the name identity of Genre/Actor/Director/
Country nodes.  The Cypher text of `recommendations_query` is translated
clause by clause into list operations; `ORDER BY total_score DESC` becomes
an insertion sort by the descending-score relation and `LIMIT 10` becomes
`List.take 10`.
-/

namespace OTT

/-- A `:Movie` or `:TVShow` node.  `nid` is the node identity (Cypher `<>`
compares node identity, not properties); `isMovie` records which of the two
labels the node carries. -/
structure Item where
  nid : Nat
  show_id : String
  title : String
  release_year : Int
  rating : String
  duration : String
  isMovie : Bool
deriving DecidableEq, Repr

/-- The association graph: items plus the four typed edge lists.
`belongsToGenre` links an item `nid` to a Genre name, `actedIn` an Actor
name to an item `nid`, `directed` a Director name to an item `nid`,
`releasedIn` an item `nid` to a Country name (names are the identity keys
of Genre/Actor/Director/Country nodes, as imported by MERGE on `name`). -/
structure Graph where
  items : List Item
  belongsToGenre : List (Nat × String)
  actedIn : List (String × Nat)
  directed : List (String × Nat)
  releasedIn : List (Nat × String)
deriving DecidableEq, Repr

/-- Distinct genre names `g` with `(m)-[:BELONGS_TO_GENRE]->(g)`. -/
def genresOf (G : Graph) (m : Item) : List String :=
  ((G.belongsToGenre.filter (fun e => e.1 == m.nid)).map (fun e => e.2)).dedup

/-- Distinct actor names `a` with `(a)-[:ACTED_IN]->(m)`. -/
def actorsOf (G : Graph) (m : Item) : List String :=
  ((G.actedIn.filter (fun e => e.2 == m.nid)).map (fun e => e.1)).dedup

/-- Distinct director names `d` with `(d)-[:DIRECTED]->(m)`. -/
def directorsOf (G : Graph) (m : Item) : List String :=
  ((G.directed.filter (fun e => e.2 == m.nid)).map (fun e => e.1)).dedup

/-- `count(DISTINCT g)` over `(a)-[:BELONGS_TO_GENRE]->(g)<-[:BELONGS_TO_GENRE]-(b)`. -/
def genre_matches (G : Graph) (a b : Item) : Nat :=
  ((genresOf G a).filter (fun g => (genresOf G b).contains g)).length

/-- `count(DISTINCT a)` over `(sel)<-[:ACTED_IN]-(a:Actor)-[:ACTED_IN]->(sim)`
(the OPTIONAL MATCH contributes 0 when nothing matches). -/
def actor_matches (G : Graph) (a b : Item) : Nat :=
  ((actorsOf G a).filter (fun x => (actorsOf G b).contains x)).length

/-- `count(DISTINCT d)` over `(sel)<-[:DIRECTED]-(d:Director)-[:DIRECTED]->(sim)`. -/
def director_matches (G : Graph) (a b : Item) : Nat :=
  ((directorsOf G a).filter (fun x => (directorsOf G b).contains x)).length

/-- `genre_matches * 2` -/
def genre_score (G : Graph) (a b : Item) : ℚ :=
  (genre_matches G a b : ℚ) * 2

/-- `actor_matches * 1.5` -/
def actor_score (G : Graph) (a b : Item) : ℚ :=
  (actor_matches G a b : ℚ) * 1.5

/-- `director_matches * 1.5` -/
def director_score (G : Graph) (a b : Item) : ℚ :=
  (director_matches G a b : ℚ) * 1.5

/-- `genre_score + actor_score + director_score as total_score` -/
def total_score (G : Graph) (a b : Item) : ℚ :=
  genre_score G a b + actor_score G a b + director_score G a b

/-- `MATCH (selected:Movie {title: $movie})`: all Movie nodes whose `title`
property equals the bound parameter. -/
def selectedBindings (G : Graph) (t : String) : List Item :=
  G.items.filter (fun m => m.isMovie && m.title == t)

/-- `MATCH (selected)-[:BELONGS_TO_GENRE]->(g:Genre)<-[:BELONGS_TO_GENRE]-(similar:Movie)
WHERE similar <> selected`, grouped per `similar`: Movie nodes other than
`sel` reachable through at least one shared genre. -/
def genreCandidates (G : Graph) (sel : Item) : List Item :=
  G.items.filter (fun s => s.isMovie && s.nid != sel.nid && genre_matches G sel s != 0)

/-- One row of the aggregated stream right before `ORDER BY`: the `selected`
binding, the `similar` candidate, and its `total_score`. -/
structure ScoredPair where
  selected : Item
  similar : Item
  score : ℚ
deriving DecidableEq, Repr

/-- The row stream after score computation, before `ORDER BY`. -/
def scoredPairs (G : Graph) (t : String) : List ScoredPair :=
  (selectedBindings G t).flatMap (fun sel =>
    (genreCandidates G sel).map (fun s => ⟨sel, s, total_score G sel s⟩))

/-- `ORDER BY total_score DESC`: the earlier row's score is at least the
later row's score. -/
def scoreGe (p q : ScoredPair) : Prop := q.score ≤ p.score

instance : DecidableRel scoreGe :=
  fun p q => inferInstanceAs (Decidable (q.score ≤ p.score))

instance : IsTotal ScoredPair scoreGe :=
  ⟨fun a b => le_total b.score a.score⟩

instance : IsTrans ScoredPair scoreGe :=
  ⟨fun _ _ _ h1 h2 => le_trans h2 h1⟩

/-- The row stream after `ORDER BY total_score DESC`. -/
def rankedAll (G : Graph) (t : String) : List ScoredPair :=
  List.insertionSort scoreGe (scoredPairs G t)

/-- The row stream after `LIMIT 10`. -/
def rankedPairs (G : Graph) (t : String) : List ScoredPair :=
  (rankedAll G t).take 10

/-- A returned record: `{title, year, rating, duration, similarity_score}`. -/
structure Row where
  title : String
  year : Int
  rating : String
  duration : String
  similarity_score : ℚ
deriving DecidableEq, Repr

/-- The full recommendation query: `RETURN similar.title, similar.release_year,
similar.rating, similar.duration, total_score` over the ordered, limited
stream. -/
def recommendations_query (G : Graph) (t : String) : List Row :=
  (rankedPairs G t).map (fun p =>
    ⟨p.similar.title, p.similar.release_year, p.similar.rating, p.similar.duration, p.score⟩)

/-- `MATCH (m:Movie) RETURN m.title as title ORDER BY m.title`. -/
def movies_query (G : Graph) : List String :=
  List.insertionSort (fun a b : String => a ≤ b)
    ((G.items.filter (fun m => m.isMovie)).map (fun m => m.title))

/-! ### Clause-level view of the recommendation query

To state that the query is read-only we keep, next to the value-level
translation above, the sequence of Cypher clause kinds appearing in its
text.  Only MERGE / SET / CREATE / DELETE clauses can modify the store;
executing a clause list threads the graph through an arbitrary write
interpretation for those and leaves it untouched for the reading clauses. -/

inductive Clause
  | matchClause
  | optionalMatchClause
  | withClause
  | whereClause
  | orderByClause
  | limitClause
  | returnClause
  | mergeClause
  | setClause
  | createClause
  | deleteClause
deriving DecidableEq, Repr

/-- The clause kinds that write to the store. -/
def Clause.isWrite : Clause → Bool
  | .mergeClause => true
  | .setClause => true
  | .createClause => true
  | .deleteClause => true
  | _ => false

/-- The clause sequence of the `recommendations_query` Cypher text, in
textual order. -/
def recommendationsClauses : List Clause :=
  [.matchClause, .withClause, .matchClause, .whereClause, .withClause,
   .optionalMatchClause, .withClause, .optionalMatchClause, .withClause,
   .withClause, .withClause, .orderByClause, .limitClause, .returnClause]

/-- Execute a clause list against the graph: writing clauses apply the
(arbitrary) write interpretation `w`, reading clauses leave the graph as
it is. -/
def runClauses (w : Clause → Graph → Graph) (cs : List Clause) (G : Graph) : Graph :=
  cs.foldl (fun g c => if c.isWrite then w c g else g) G

/-- Executing the scoring operation: the returned rows together with the
graph state after running the query's clauses. -/
def recommendations_run (w : Clause → Graph → Graph) (G : Graph) (t : String) :
    List Row × Graph :=
  (recommendations_query G t, runClauses w recommendationsClauses G)

/-! ### Session lifecycle of `Neo4jConnection.query`

`Neo4jConnection.query` runs `with self.driver.session() as session: ...`.
`driver.session()` hands out a fresh session each call and the `with`
statement closes it on both the normal and the exceptional exit of the
body.  We model the driver as a fresh-session counter plus an event trace,
and the body outcome as an arbitrary `Except` value (an `error` models
`session.run` raising). -/

inductive SessionEvent
  | acquire (sid : Nat)
  | release (sid : Nat)
deriving DecidableEq, Repr

/-- Driver state: the next fresh session id and the trace of session
events so far. -/
structure DriverState where
  nextSession : Nat
  events : List SessionEvent
deriving DecidableEq, Repr

/-- `with self.driver.session() as session: body` — acquire a fresh
session, run the body, and release the session whether the body returned
normally or raised. -/
def withSession (body : Nat → Except String (List Row)) (s : DriverState) :
    Except String (List Row) × DriverState :=
  let sid := s.nextSession
  let entered : DriverState :=
    ⟨s.nextSession + 1, s.events ++ [SessionEvent.acquire sid]⟩
  let r := body sid
  (r, ⟨entered.nextSession, entered.events ++ [SessionEvent.release sid]⟩)

/-- `Neo4jConnection.query`: one session-scoped execution of the supplied
body. -/
def Neo4jConnection.query (run : Nat → Except String (List Row))
    (s : DriverState) : Except String (List Row) × DriverState :=
  withSession run s

/-! ### The import-side label choice

`import_data.create_movie_or_show` MERGEs a `:Movie` node when the CSV
row's `type` is `'Movie'` and a `:TVShow` node otherwise (the node part of
the function, lines 24-46 of `src/import_data.py`): match on the label and
`show_id`, SET the properties on every match, or create the node when
nothing matches. -/

/-- The SET part of the MERGE: on a node matching the label and `show_id`,
overwrite `title`, `release_year`, `rating` and `duration`. -/
def mergeSetProps (isM : Bool) (show_id title : String) (release_year : Int)
    (rating duration : String) (m : Item) : Item :=
  if m.isMovie == isM && m.show_id == show_id then
    { m with title := title, release_year := release_year,
             rating := rating, duration := duration }
  else m

def create_movie_or_show (G : Graph) (freshNid : Nat) (show_id title : String)
    (release_year : Int) (rating duration ty : String) : Graph :=
  let isM : Bool := ty == "Movie"
  if (G.items.filter (fun m => m.isMovie == isM && m.show_id == show_id)).isEmpty then
    { G with items := G.items ++
        [⟨freshNid, show_id, title, release_year, rating, duration, isM⟩] }
  else
    { G with items := G.items.map (mergeSetProps isM show_id title release_year rating duration) }

/-! ### Concrete example graph

`exGraph` has three Movie nodes and one TVShow node:
`Alpha` (genres A, B; actors X, Y; director D),
`Beta` (genres A, B; actor X; no director),
`Gamma` (genre C; actors X, Y; director D — shares cast and crew with
`Alpha` but no genre), and the show `Delta` (genre A, shared with
`Alpha`). -/

def itemM0 : Item := ⟨0, "s0", "Alpha", 2000, "PG", "100 min", true⟩

def itemM1 : Item := ⟨1, "s1", "Beta", 2001, "R", "90 min", true⟩

def itemM2 : Item := ⟨2, "s2", "Gamma", 2002, "PG", "95 min", true⟩

def itemT3 : Item := ⟨3, "s3", "Delta", 2003, "TV-MA", "2 Seasons", false⟩

def exGraph : Graph :=
  { items := [itemM0, itemM1, itemM2, itemT3]
    belongsToGenre := [(0, "A"), (0, "B"), (1, "A"), (1, "B"), (2, "C"), (3, "A")]
    actedIn := [("X", 0), ("Y", 0), ("X", 1), ("X", 2), ("Y", 2)]
    directed := [("D", 0), ("D", 2)]
    releasedIn := [(0, "US")] }

/-- The single scored pair produced for the selection `Alpha` in `exGraph`:
`Beta` shares 2 genres, 1 actor and 0 directors. -/
def exPair : ScoredPair := ⟨itemM0, itemM1, total_score exGraph itemM0 itemM1⟩

/-- The `Mu` node of the second example graph. -/
def muItem : Item := ⟨10, "t0", "Mu", 2010, "PG", "100 min", true⟩

/-- Candidate number `i` of the second example graph. -/
def exCand (i : Nat) : Item :=
  ⟨10 + i, "t" ++ toString i, "C" ++ toString i, 2010, "PG", "100 min", true⟩

/-- A second example graph with twelve Movie nodes: `Mu` (nid 10) plus
eleven candidates (nids 11-21) all sharing genre G0 with `Mu`, so that the
pre-limit stream has eleven rows. -/
def exGraph2 : Graph :=
  { items := [muItem, exCand 1, exCand 2, exCand 3, exCand 4, exCand 5,
              exCand 6, exCand 7, exCand 8, exCand 9, exCand 10, exCand 11]
    belongsToGenre := [(10, "G0"), (11, "G0"), (12, "G0"), (13, "G0"),
                       (14, "G0"), (15, "G0"), (16, "G0"), (17, "G0"),
                       (18, "G0"), (19, "G0"), (20, "G0"), (21, "G0")]
    actedIn := []
    directed := []
    releasedIn := [] }

/-- The scored pair for candidate `i` of `exGraph2` under selection `Mu`. -/
def exPair2 (i : Nat) : ScoredPair :=
  ⟨muItem, exCand i, total_score exGraph2 muItem (exCand i)⟩

/-! ### Helper lemmas -/

/-- A row surviving `LIMIT 10` is a row of the aggregated stream. -/
lemma mem_of_mem_rankedPairs {G : Graph} {t : String} {p : ScoredPair}
    (h : p ∈ rankedPairs G t) : p ∈ scoredPairs G t := by
  have h1 : p ∈ rankedAll G t := (List.take_sublist 10 _).mem h
  simpa [rankedAll] using h1

/-- What membership in the aggregated stream says about a row: its
`selected` is a Movie node with the bound title, its `similar` is another
Movie node sharing at least one genre, and its score is the weighted
sum. -/
lemma scoredPairs_spec {G : Graph} {t : String} {p : ScoredPair}
    (h : p ∈ scoredPairs G t) :
    p.selected ∈ G.items ∧ p.selected.isMovie = true ∧ p.selected.title = t ∧
    p.similar ∈ G.items ∧ p.similar.isMovie = true ∧
    p.similar.nid ≠ p.selected.nid ∧
    genre_matches G p.selected p.similar ≠ 0 ∧
    p.score = total_score G p.selected p.similar := by
  simp only [scoredPairs, List.mem_flatMap, List.mem_map, selectedBindings,
    genreCandidates, List.mem_filter, Bool.and_eq_true, beq_iff_eq,
    bne_iff_ne, ne_eq] at h
  obtain ⟨sel, ⟨hselMem, hselMov, hselTitle⟩, s, ⟨hsMem, ⟨hsMov, hsNid⟩, hsGm⟩, hps⟩ := h
  cases hps
  exact ⟨hselMem, hselMov, hselTitle, hsMem, hsMov, hsNid, hsGm, rfl⟩

/-- The weighted sum written out. -/
lemma total_score_eq (G : Graph) (a b : Item) :
    total_score G a b = (genre_matches G a b : ℚ) * 2
      + (actor_matches G a b : ℚ) * 1.5 + (director_matches G a b : ℚ) * 1.5 := rfl

/-- A row with at least one shared genre scores at least `2`. -/
lemma two_le_total_score {G : Graph} {a b : Item}
    (h : genre_matches G a b ≠ 0) : (2 : ℚ) ≤ total_score G a b := by
  have h1 : (1 : ℚ) ≤ (genre_matches G a b : ℚ) := by
    exact_mod_cast Nat.one_le_iff_ne_zero.mpr h
  have h2 : (0 : ℚ) ≤ (actor_matches G a b : ℚ) := Nat.cast_nonneg _
  have h3 : (0 : ℚ) ≤ (director_matches G a b : ℚ) := Nat.cast_nonneg _
  rw [total_score_eq]
  linarith

/-- The ordered stream is pairwise non-increasing in score. -/
lemma rankedAll_sorted (G : Graph) (t : String) :
    (rankedAll G t).Pairwise scoreGe :=
  List.sorted_insertionSort scoreGe (scoredPairs G t)

/-- In `exGraph`, selecting `Alpha` produces exactly the pair for `Beta`. -/
lemma rankedPairs_exGraph : rankedPairs exGraph "Alpha" = [exPair] := rfl

lemma exPair_mem : exPair ∈ rankedPairs exGraph "Alpha" := by
  rw [rankedPairs_exGraph]
  exact List.mem_singleton_self _

/-- In `exGraph2`, selecting `Mu` produces the eleven candidate pairs in
item order. -/
lemma scoredPairs_exGraph2 :
    scoredPairs exGraph2 "Mu" = [exPair2 1, exPair2 2, exPair2 3, exPair2 4,
      exPair2 5, exPair2 6, exPair2 7, exPair2 8, exPair2 9, exPair2 10,
      exPair2 11] := rfl

/-- All eleven candidate pairs of `exGraph2` carry the same score. -/
lemma score_const_exGraph2 {p : ScoredPair} (h : p ∈ scoredPairs exGraph2 "Mu") :
    p.score = (exPair2 1).score := by
  have hm : p.score ∈ (scoredPairs exGraph2 "Mu").map ScoredPair.score :=
    List.mem_map_of_mem _ h
  have hrep : (scoredPairs exGraph2 "Mu").map ScoredPair.score
      = List.replicate 11 (exPair2 1).score := rfl
  rw [hrep] at hm
  exact List.eq_of_mem_replicate hm

/-- With all scores tied, the sort leaves the `exGraph2` stream as it is. -/
lemma rankedAll_exGraph2 : rankedAll exGraph2 "Mu" = scoredPairs exGraph2 "Mu" := by
  show List.insertionSort scoreGe (scoredPairs exGraph2 "Mu") = scoredPairs exGraph2 "Mu"
  apply List.Sorted.insertionSort_eq
  apply List.pairwise_of_forall_mem_list
  intro a ha b hb
  show b.score ≤ a.score
  rw [score_const_exGraph2 ha, score_const_exGraph2 hb]

lemma drop10_exGraph2 : (rankedAll exGraph2 "Mu").drop 10 = [exPair2 11] := by
  rw [rankedAll_exGraph2, scoredPairs_exGraph2]
  rfl

lemma take10_exGraph2 :
    rankedPairs exGraph2 "Mu" = [exPair2 1, exPair2 2, exPair2 3, exPair2 4,
      exPair2 5, exPair2 6, exPair2 7, exPair2 8, exPair2 9, exPair2 10] := by
  show (rankedAll exGraph2 "Mu").take 10 = _
  rw [rankedAll_exGraph2, scoredPairs_exGraph2]
  rfl

/-- The SET step keeps the node's label. -/
lemma mergeSetProps_isMovie (isM : Bool) (sid ti : String) (y : Int)
    (ra du : String) (m : Item) :
    (mergeSetProps isM sid ti y ra du m).isMovie = m.isMovie := by
  unfold mergeSetProps
  split <;> rfl

/-- The SET step keeps the node's identity. -/
lemma mergeSetProps_nid (isM : Bool) (sid ti : String) (y : Int)
    (ra du : String) (m : Item) :
    (mergeSetProps isM sid ti y ra du m).nid = m.nid := by
  unfold mergeSetProps
  split <;> rfl

/-- Updating the matched nodes' properties changes neither labels nor node
identities, so the Movie-labeled node identities are untouched. -/
lemma filter_map_update (l : List Item) (isM : Bool) (sid ti : String)
    (y : Int) (ra du : String) :
    (((l.map (mergeSetProps isM sid ti y ra du)).filter
        (fun m => m.isMovie)).map Item.nid)
      = ((l.filter (fun m => m.isMovie)).map Item.nid) := by
  induction l with
  | nil => rfl
  | cons a l ih =>
    simp only [List.map_cons, List.filter_cons, mergeSetProps_isMovie]
    by_cases hM : a.isMovie = true
    · simp [hM, mergeSetProps_nid, ih]
    · simp [hM, ih]

/-! ### The claims -/

/-- C1: every candidate's similarity score equals
`genre_overlap * 2.0 + actor_overlap * 1.5 + director_overlap * 1.5`,
the overlaps being the distinct shared-genre, shared-actor and
shared-director counts between the selected Item and the candidate. -/
theorem C1_score_formula (G : Graph) (t : String) (p : ScoredPair)
    (hp : p ∈ rankedPairs G t) :
    p.score = (genre_matches G p.selected p.similar : ℚ) * 2
      + (actor_matches G p.selected p.similar : ℚ) * 1.5
      + (director_matches G p.selected p.similar : ℚ) * 1.5 := by
  obtain ⟨_, _, _, _, _, _, _, hsc⟩ := scoredPairs_spec (mem_of_mem_rankedPairs hp)
  rw [hsc, total_score_eq]

/-- C1 witness: in `exGraph`, the candidate `Beta` shares exactly 2 genres,
1 actor and 0 directors with the selected `Alpha`, and its score is 5.5. -/
theorem C1_score_formula_witness :
    exPair ∈ rankedPairs exGraph "Alpha" ∧
    genre_matches exGraph exPair.selected exPair.similar = 2 ∧
    actor_matches exGraph exPair.selected exPair.similar = 1 ∧
    director_matches exGraph exPair.selected exPair.similar = 0 ∧
    exPair.score = 5.5 := by
  refine ⟨exPair_mem, by decide, by decide, by decide, ?_⟩
  rw [C1_score_formula exGraph "Alpha" exPair exPair_mem]
  rw [show genre_matches exGraph exPair.selected exPair.similar = 2 by decide,
      show actor_matches exGraph exPair.selected exPair.similar = 1 by decide,
      show director_matches exGraph exPair.selected exPair.similar = 0 by decide]
  norm_num

/-- C2: every candidate shares at least one genre with the selected Item
and has score `> 0`; an Item sharing no genre with the selected Item
(in particular one with no Genre association at all) is never the
candidate of a returned row, whatever its shared actors or directors. -/
theorem C2_genre_gate (G : Graph) (t : String) (p : ScoredPair)
    (hp : p ∈ rankedPairs G t) :
    genre_matches G p.selected p.similar ≠ 0 ∧ 0 < p.score ∧
    ∀ c : Item, genre_matches G p.selected c = 0 → p.similar ≠ c := by
  obtain ⟨_, _, _, _, _, _, hgm, hsc⟩ := scoredPairs_spec (mem_of_mem_rankedPairs hp)
  refine ⟨hgm, ?_, ?_⟩
  · rw [hsc]
    exact lt_of_lt_of_le (by norm_num) (two_le_total_score hgm)
  · intro c h0 heq
    rw [heq] at hgm
    exact hgm h0

/-- C2 witness: in `exGraph` the returned pair for `Alpha` has a shared
genre and positive score, and `Gamma` — which shares two actors and a
director with `Alpha` but no genre — is not its candidate. -/
theorem C2_genre_gate_witness :
    genre_matches exGraph exPair.selected exPair.similar ≠ 0 ∧
    0 < exPair.score ∧ exPair.similar ≠ itemM2 := by
  obtain ⟨h1, h2, h3⟩ := C2_genre_gate exGraph "Alpha" exPair exPair_mem
  exact ⟨h1, h2, h3 itemM2 (by decide)⟩

/-- C3: if no Movie node carries the selected title, the query returns the
empty sequence. -/
theorem C3_absent_empty (G : Graph) (t : String)
    (h : ∀ m ∈ G.items, ¬(m.isMovie = true ∧ m.title = t)) :
    recommendations_query G t = [] := by
  have hsel : selectedBindings G t = [] := by
    rw [selectedBindings, List.filter_eq_nil_iff]
    intro m hm
    simp only [Bool.and_eq_true, beq_iff_eq]
    exact h m hm
  simp [recommendations_query, rankedPairs, rankedAll, scoredPairs, hsel]

/-- C3 witness: `Zeta` is not a title in `exGraph`, and the result for it
is empty. -/
theorem C3_absent_empty_witness : recommendations_query exGraph "Zeta" = [] :=
  C3_absent_empty exGraph "Zeta" (by decide)

/-- C4: under the data-model invariant that Item identity keys are unique
(here: two Movie nodes with the same title are the same node), the
selected Item never appears among its own recommended candidates. -/
theorem C4_no_self_recommendation (G : Graph) (t : String) (sel : Item)
    (hmem : sel ∈ G.items) (hM : sel.isMovie = true) (hT : sel.title = t)
    (huniq : ∀ a ∈ G.items, ∀ b ∈ G.items,
      a.isMovie = true → b.isMovie = true → a.title = b.title → a.nid = b.nid)
    (p : ScoredPair) (hp : p ∈ rankedPairs G t) : p.similar ≠ sel := by
  obtain ⟨hselMem, hselMov, hselT, _, _, hnid, _, _⟩ :=
    scoredPairs_spec (mem_of_mem_rankedPairs hp)
  intro heq
  have hid : sel.nid = p.selected.nid :=
    huniq sel hmem p.selected hselMem hM hselMov (by rw [hT, hselT])
  exact hnid (by rw [heq, hid])

/-- C4 witness: the row returned for `Alpha` in `exGraph` does not have
`Alpha` itself as candidate. -/
theorem C4_no_self_recommendation_witness : exPair.similar ≠ itemM0 :=
  C4_no_self_recommendation exGraph "Alpha" itemM0 (by decide) rfl rfl
    (by decide) exPair exPair_mem

/-- C5: the returned rows are ordered by similarity score non-increasingly:
at every pair of adjacent positions the earlier row's score is at least
the later row's score. -/
theorem C5_sorted_desc (G : Graph) (t : String) :
    List.Chain' (fun r r' => r'.similarity_score ≤ r.similarity_score)
      (recommendations_query G t) := by
  have hpw : (rankedPairs G t).Pairwise scoreGe :=
    List.Pairwise.sublist (List.take_sublist 10 _) (rankedAll_sorted G t)
  have hmap : (recommendations_query G t).Pairwise
      (fun r r' => r'.similarity_score ≤ r.similarity_score) := by
    rw [recommendations_query]
    exact List.pairwise_map.mpr hpw
  exact hmap.chain'

/-- C6: at most 10 rows are returned — exactly `min 10 (number of
candidates)` — and every candidate cut off by the limit scores no more
than any returned one. -/
theorem C6_top_ten (G : Graph) (t : String) :
    (recommendations_query G t).length ≤ 10 ∧
    (recommendations_query G t).length = min 10 (scoredPairs G t).length ∧
    ∀ p ∈ (rankedAll G t).drop 10, ∀ q ∈ rankedPairs G t, p.score ≤ q.score := by
  refine ⟨?_, ?_, ?_⟩
  · simp [recommendations_query, rankedPairs]
  · simp [recommendations_query, rankedPairs, List.length_take,
      (List.perm_insertionSort scoreGe (scoredPairs G t)).length_eq, rankedAll]
  · intro p hp q hq
    have hpw := rankedAll_sorted G t
    rw [← List.take_append_drop 10 (rankedAll G t)] at hpw
    exact (List.pairwise_append.mp hpw).2.2 q hq p hp

/-- C6 witness: `exGraph2` has eleven candidates for `Mu`; ten rows are
returned and the dropped candidate scores no more than the first returned
one. -/
theorem C6_top_ten_witness :
    (recommendations_query exGraph2 "Mu").length ≤ 10 ∧
    (scoredPairs exGraph2 "Mu").length = 11 ∧
    (exPair2 11).score ≤ (exPair2 1).score := by
  refine ⟨(C6_top_ten exGraph2 "Mu").1, rfl, ?_⟩
  refine (C6_top_ten exGraph2 "Mu").2.2 (exPair2 11) ?_ (exPair2 1) ?_
  · rw [drop10_exGraph2]
    exact List.mem_singleton_self _
  · rw [take10_exGraph2]
    exact List.mem_cons_self _ _

/-- C7: the scoring operation is read-only — running the query's clauses
leaves the whole Item/Person/Genre/Country association graph unchanged,
whatever semantics writing clauses would have, and the returned rows are
the query result. -/
theorem C7_read_only (w : Clause → Graph → Graph) (G : Graph) (t : String) :
    (recommendations_run w G t).2 = G ∧
    (recommendations_run w G t).1 = recommendations_query G t :=
  ⟨rfl, rfl⟩

/-- C8: each scoring operation acquires a fresh connection-scoped session
and releases it on every exit path — the body outcome `run` is arbitrary,
in particular an error — and a fresh session id is never one previously
acquired. -/
theorem C8_session_scoped (run : Nat → Except String (List Row))
    (s : DriverState) :
    (Neo4jConnection.query run s).2.events
      = s.events ++ [SessionEvent.acquire s.nextSession,
                     SessionEvent.release s.nextSession] ∧
    (Neo4jConnection.query run s).2.nextSession = s.nextSession + 1 ∧
    (Neo4jConnection.query run s).1 = run s.nextSession ∧
    ((∀ sid, SessionEvent.acquire sid ∈ s.events → sid < s.nextSession) →
      SessionEvent.acquire s.nextSession ∉ s.events) := by
  refine ⟨?_, rfl, rfl, ?_⟩
  · simp [Neo4jConnection.query, withSession]
  · intro h hmem
    exact absurd (h _ hmem) (lt_irrefl _)

/-- C8 witness: even when the body raises, the trace of a query from a
fresh driver is acquire-then-release of session 0, the error is surfaced,
and session 0 was not previously acquired. -/
theorem C8_session_scoped_witness :
    (Neo4jConnection.query (fun _ => Except.error "boom") ⟨0, []⟩).2.events
      = [SessionEvent.acquire 0, SessionEvent.release 0] ∧
    (Neo4jConnection.query (fun _ => Except.error "boom") ⟨0, []⟩).1
      = Except.error "boom" ∧
    SessionEvent.acquire 0 ∉ ([] : List SessionEvent) := by
  obtain ⟨h1, _, h3, h4⟩ := C8_session_scoped (fun _ => Except.error "boom") ⟨0, []⟩
  exact ⟨by simpa using h1, h3, h4 (by simp)⟩

/-- C9: the selectable titles are exactly the titles of Movie nodes; both
items of every returned row are Movie nodes, so a non-Movie catalog entry
is never selected and never a candidate; and importing a row whose type is
not `Movie` leaves the set of Movie node identities unchanged. -/
theorem C9_movies_only (G : Graph) (t : String) :
    (∀ s : String, s ∈ movies_query G ↔
      ∃ m, m ∈ G.items ∧ m.isMovie = true ∧ m.title = s) ∧
    (∀ p ∈ rankedPairs G t, p.selected.isMovie = true ∧ p.similar.isMovie = true) ∧
    (∀ c : Item, c.isMovie = false →
      ∀ p ∈ rankedPairs G t, p.selected ≠ c ∧ p.similar ≠ c) ∧
    (∀ (n : Nat) (sid ti : String) (y : Int) (ra du ty : String),
      ty ≠ "Movie" →
      ((create_movie_or_show G n sid ti y ra du ty).items.filter
          (fun m => m.isMovie)).map Item.nid
        = (G.items.filter (fun m => m.isMovie)).map Item.nid) := by
  refine ⟨?_, ?_, ?_, ?_⟩
  · intro s
    simp only [movies_query, List.mem_insertionSort, List.mem_map,
      List.mem_filter]
    constructor
    · rintro ⟨m, ⟨hm, hmov⟩, rfl⟩
      exact ⟨m, hm, hmov, rfl⟩
    · rintro ⟨m, hm, hmov, rfl⟩
      exact ⟨m, ⟨hm, hmov⟩, rfl⟩
  · intro p hp
    obtain ⟨_, hselMov, _, _, hsimMov, _, _, _⟩ :=
      scoredPairs_spec (mem_of_mem_rankedPairs hp)
    exact ⟨hselMov, hsimMov⟩
  · intro c hcF p hp
    obtain ⟨_, hselMov, _, _, hsimMov, _, _, _⟩ :=
      scoredPairs_spec (mem_of_mem_rankedPairs hp)
    constructor
    · intro heq
      rw [heq, hcF] at hselMov
      exact absurd hselMov (by decide)
    · intro heq
      rw [heq, hcF] at hsimMov
      exact absurd hsimMov (by decide)
  · intro n sid ti y ra du ty hty
    have hb : (ty == "Movie") = false := beq_eq_false_iff_ne.mpr hty
    rw [create_movie_or_show]
    simp only [hb]
    split
    · simp
    · exact filter_map_update G.items false sid ti y ra du

/-- C9 witness: `Beta` is selectable in `exGraph`, the returned candidate
is a Movie node distinct from the TV show `Delta`, and importing a
`TV Show` row does not change the Movie node set. -/
theorem C9_movies_only_witness :
    "Beta" ∈ movies_query exGraph ∧
    exPair.similar.isMovie = true ∧
    exPair.similar ≠ itemT3 ∧
    ((create_movie_or_show exGraph 9 "s9" "Epsilon" 2005 "TV-MA" "1 Season"
        "TV Show").items.filter (fun m => m.isMovie)).map Item.nid
      = (exGraph.items.filter (fun m => m.isMovie)).map Item.nid := by
  obtain ⟨h1, h2, h3, h4⟩ := C9_movies_only exGraph "Alpha"
  exact ⟨(h1 "Beta").mpr ⟨itemM1, by decide, rfl, rfl⟩,
    (h2 exPair exPair_mem).2,
    (h3 itemT3 rfl exPair exPair_mem).2,
    h4 9 "s9" "Epsilon" 2005 "TV-MA" "1 Season" "TV Show" (by decide)⟩

/-- C10: every returned candidate scores at least `2.0`: its genre overlap
is at least one, weighted `2.0`, and the actor and director contributions
are non-negative. -/
theorem C10_min_score (G : Graph) (t : String) (p : ScoredPair)
    (hp : p ∈ rankedPairs G t) : (2 : ℚ) ≤ p.score := by
  obtain ⟨_, _, _, _, _, _, hgm, hsc⟩ := scoredPairs_spec (mem_of_mem_rankedPairs hp)
  rw [hsc]
  exact two_le_total_score hgm

/-- C10 witness: the row returned for `Alpha` in `exGraph` scores at least
`2`. -/
theorem C10_min_score_witness : (2 : ℚ) ≤ exPair.score :=
  C10_min_score exGraph "Alpha" exPair exPair_mem

end OTT
